import Mathlib

/-!
Verification of the hogwarts robot-dashboard core against its source.

The development shallowly embeds the parts of the repository that the
claims are about:

* the action-gateway HTTP endpoint `POST /generic-action`
  (ros-server/index.js, lines 60-129);
* the bag-recording controller endpoints `POST /bag/start`,
  `POST /bag/stop`, `GET /bag/status` and the child-process exit
  handlers (ros-server/index.js, lines 136-245);
* the experiment-log store endpoints under `/experiment/logs`
  (ros-server/index.js, lines 252-326), together with the route table
  the Express application registers;
* the browser-resident experiment logger hook `useExperimentLogger`
  (`logEvent`, `saveLogsToServer`, `clearLogs`) and the
  `handleSessionChange` callback of `ActionsPanel.tsx`, modelled as a
  small-step transition system over scripts of UI and network events;
* the client-side success derivation of `callGenericAction`
  (ActionsPanel.tsx, lines 135-143).

JavaScript values that cross these interfaces are modelled by a small
JSON value type with JavaScript truthiness.
-/

/-- A JSON value as it travels through the HTTP bodies of the system.
`num` keeps an integer: none of the verified code paths inspects
fractional parts. -/
inductive Json where
  | null : Json
  | bool (b : Bool) : Json
  | num (n : Int) : Json
  | str (s : String) : Json
  | arr (elems : List Json) : Json
  | obj (fields : List (String × Json)) : Json
deriving Repr

/-- JavaScript truthiness of a JSON value: `null`, `false`, `0` and the
empty string are falsy; arrays and objects (even empty ones) are truthy. -/
def Json.truthy : Json → Bool
  | .null => false
  | .bool b => b
  | .num n => n != 0
  | .str s => s != ""
  | .arr _ => true
  | .obj _ => true

/-- Truthiness of a possibly-absent field (`undefined` is falsy). -/
def jsTruthy : Option Json → Bool
  | none => false
  | some j => j.truthy

/-- Body of a `POST /generic-action` request after
`const { actionName, actionType, goal: goalData } = req.body || {};`
— each field may be absent. -/
structure GwBody where
  actionName : Option Json
  actionType : Option Json
  goal : Option Json

/-- The behaviour of everything on the far side of the gateway during one
request: whether `rclnodejs.require(actionType)` succeeds, how many
milliseconds pass before an action server is reachable under the
requested name, and what `goalHandle.getResult()` does —
`Except.error` models a rejected promise, `Except.ok (t, st, p)` a
result message `p` arriving after `t` milliseconds with goal-status
code `st`. -/
structure RemoteWorld where
  typeResolvable : Bool
  serverAvailableAt : Nat
  getResult : Except Unit (Nat × Nat × Json)

/-- The HTTP responses the `/generic-action` handler can produce. -/
inductive GwResponse where
  | invalidRequest : GwResponse
  | nodeNotReady : GwResponse
  | internalError : GwResponse
  | serverUnavailable : GwResponse
  | resultTimeout : GwResponse
  | ok (status : Nat) (result : Json) : GwResponse

/-- HTTP status code of each response, as set by the handler. -/
def GwResponse.httpCode : GwResponse → Nat
  | .invalidRequest => 400
  | .nodeNotReady => 503
  | .internalError => 500
  | .serverUnavailable => 503
  | .resultTimeout => 504
  | .ok _ _ => 200

/-- Holds exactly on the 504 `Timed-out waiting for action result` reply. -/
def GwResponse.isTimeout : GwResponse → Bool
  | .resultTimeout => true
  | _ => false

/-- Holds exactly on the 400 missing-field reply. -/
def GwResponse.isInvalid : GwResponse → Bool
  | .invalidRequest => true
  | _ => false

/-- Holds exactly on the 200 status-and-result reply. -/
def GwResponse.isOk : GwResponse → Bool
  | .ok _ _ => true
  | _ => false

/-- What one `/generic-action` request did: the response sent, whether
`actionClient.sendGoal` was reached, and the goal payload wrapped into
the `<Type>.Goal` message when it was. -/
structure GwTrace where
  response : GwResponse
  goalSubmitted : Bool
  sentGoal : Option Json

/-- The argument of `actionClient.waitForServer(5000)`. -/
def discoveryTimeoutMs : Nat := 5000

/-- The `POST /generic-action` handler (ros-server/index.js, lines
60-129), step by step:

1. destructure the body and answer 400 when any of `actionName`,
   `actionType`, `goal` is falsy;
2. answer 503 when the ROS node is not initialised yet;
3. `rclnodejs.require(actionType)` — a throw is caught by the outer
   `catch` and answered 500;
4. `waitForServer(5000)` — answer 503 and submit nothing when no server
   becomes reachable within 5000 ms;
5. `sendGoal` then `await goalHandle.getResult()` with no timeout
   argument: a rejection is answered 504, and a result message is
   answered 200 whenever it arrives — the arrival time is never
   consulted. -/
def genericAction (body : GwBody) (nodeReady : Bool) (w : RemoteWorld) : GwTrace :=
  if !jsTruthy body.actionName || !jsTruthy body.actionType || !jsTruthy body.goal then
    ⟨.invalidRequest, false, none⟩
  else if !nodeReady then
    ⟨.nodeNotReady, false, none⟩
  else if !w.typeResolvable then
    ⟨.internalError, false, none⟩
  else if discoveryTimeoutMs < w.serverAvailableAt then
    ⟨.serverUnavailable, false, none⟩
  else
    match w.getResult with
    | .error _ => ⟨.resultTimeout, true, body.goal⟩
    | .ok (_, st, payload) => ⟨.ok st payload, true, body.goal⟩

/-- The strict `success === true` test on the `success` field of the result payload
(`result.result.success === true` in ActionsPanel.tsx, line 138):
only an explicit boolean `true` counts. -/
def payloadSuccessTrue (result : List (String × Json)) : Bool :=
  match result.lookup "success" with
  | some (.bool true) => true
  | _ => false

/-- The goal-status code `GoalStatus.STATUS_SUCCEEDED` the client
compares against (`result.status == 4`). -/
def succeededStatus : Nat := 4

/-- The success flag `callGenericAction` derives from a 200 reply
(ActionsPanel.tsx, line 138):
`result.result.success === true || result.status == 4`. -/
def deriveSuccess (status : Nat) (result : List (String × Json)) : Bool :=
  payloadSuccessTrue result || status == succeededStatus

/-- Modelled from the spec: `success = (statusCode == Succeeded) OR
(resultPayload contains an explicit success=true field)` — written in
the spec's order, to be compared with `deriveSuccess`. -/
def specSuccess (status : Nat) (result : List (String × Json)) : Bool :=
  status == succeededStatus || payloadSuccessTrue result

/-- JavaScript `s.startsWith(pre)`, computed on the character lists so
that concrete instances evaluate inside the kernel. -/
def jsStartsWith (s pre : String) : Bool :=
  pre.toList.isPrefixOf s.toList

/-- JavaScript `a || b` for an optional string: the default is taken when
the field is absent or empty (falsy). -/
def jsOrStr (o : Option String) (d : String) : String :=
  match o with
  | none => d
  | some s => if s = "" then d else s

/-- The two module-level variables of the recording controller
(`let bagProcess = null; let currentBagPath = null;`).  A process is
modelled by its pid. -/
structure BagState where
  bagProcess : Option Nat
  currentBagPath : Option String
deriving Repr, DecidableEq

/-- Responses of the three bag endpoints. -/
inductive BagResp where
  | alreadyActive : BagResp
  | started (path : String) (topics : List String) : BagResp
  | noActive : BagResp
  | stopped (path : Option String) : BagResp
deriving Repr, DecidableEq

/-- HTTP status code of each bag response. -/
def BagResp.httpCode : BagResp → Nat
  | .alreadyActive => 400
  | .started _ _ => 200
  | .noActive => 400
  | .stopped _ => 200

/-- The default topic list of `POST /bag/start`
(ros-server/index.js, lines 147-167). -/
def defaultTopics : List String :=
  ["/robomaster/cmd_vel", "/robomaster/cmd_wheels", "/robomaster/cmd_arm",
   "/robomaster/mov_arm_pose", "/robomaster/gripper", "/robomaster/leds/color",
   "/robomaster/leds/effect", "/robomaster/cmd_sound", "/robomaster/panic",
   "/robomaster/state", "/robomaster/odom", "/robomaster/joint_states",
   "/robomaster/imu", "/robomaster/battery", "/robomaster/pose_world_ref",
   "/tf", "/tf_static", "/rosout", "/experiment/event"]

/-- Endpoint `POST /bag/start` (ros-server/index.js, lines 136-209): when a bag
process is already running answer 400 and change nothing; otherwise
compute the output path from `outputPath || sessionName || 'session'`
plus the timestamp, spawn the recorder (the fresh pid is a parameter),
store pid and path and answer 200. -/
def bagStart (s : BagState) (topics : Option (List String))
    (outputPath sessionName : Option String) (timestamp : String)
    (newPid : Nat) : BagState × BagResp :=
  if s.bagProcess.isSome then
    (s, .alreadyActive)
  else
    let bagPath := jsOrStr outputPath
      ("./experiment_bags/" ++ jsOrStr sessionName "session" ++ "_" ++ timestamp)
    let topicsList := topics.getD defaultTopics
    (⟨some newPid, some bagPath⟩, .started bagPath topicsList)

/-- Endpoint `POST /bag/stop` (ros-server/index.js, lines 212-236): when no bag
process is running answer 400; otherwise send SIGINT, and after the 2 s
settle interval null out both variables and answer 200 with the stopped
path. -/
def bagStop (s : BagState) : BagState × BagResp :=
  if s.bagProcess.isNone then
    (s, .noActive)
  else
    (⟨none, none⟩, .stopped s.currentBagPath)

/-- Endpoint `GET /bag/status` (ros-server/index.js, lines 239-245): a pure read
answering `{recording: !!bagProcess, path, pid}`. -/
def bagStatus (s : BagState) : Bool × Option String × Option Nat :=
  (s.bagProcess.isSome, s.currentBagPath, s.bagProcess)

/-- The `bagProcess.on('close', ...)` handler (ros-server/index.js,
lines 193-197): when the external recorder exits for any reason both
variables are nulled out. -/
def onBagClose (_s : BagState) : BagState := ⟨none, none⟩

/-- The `bagProcess.on('error', ...)` handler (ros-server/index.js,
lines 187-191): same reset on a process error. -/
def onBagError (_s : BagState) : BagState := ⟨none, none⟩

/-- The Log Store's durable state: one `<sessionId>.jsonl` file per
session — the filesystem as a map from session id to the file's full
text, `none` when the file does not exist. -/
structure StoreState where
  files : String → Option String

/-- The call `fs.writeFileSync(filePath, logs)`: replace the session's file
content, creating the file when absent. -/
def writeFile (files : String → Option String) (sid content : String) :
    String → Option String :=
  fun k => if k = sid then some content else files k

/-- The routes the Express application registers, in registration order
(ros-server/index.js): any request matching none of them gets the
framework's default 404 reply. -/
def serverRoutes : List (String × String) :=
  [("POST", "/generic-action"),
   ("POST", "/bag/start"),
   ("POST", "/bag/stop"),
   ("GET", "/bag/status"),
   ("GET", "/experiment/logs/download/:sessionId"),
   ("POST", "/experiment/logs/save"),
   ("GET", "/experiment/logs/list")]

/-- Request dispatch restricted to the `/experiment/logs` namespace
(no other registered route has that prefix), returning the new store
state and HTTP status:

* `POST /experiment/logs/save` (lines 265-293): 400 when `sessionId` or
  `logs` is falsy, else overwrite `<sessionId>.jsonl` with `logs` and
  answer 200;
* `GET /experiment/logs/list` (lines 296-326): answer 200;
* `GET /experiment/logs/download/<sid>` (lines 252-262): 200 when the
  file exists, 404 otherwise;
* anything else — in particular `POST /experiment/logs/append`, for
  which no route is registered — gets the default 404 and touches no
  file. -/
def logStoreRequest (st : StoreState) (method path : String)
    (sessionId logs : Option String) : StoreState × Nat :=
  if method = "POST" ∧ path = "/experiment/logs/save" then
    match sessionId, logs with
    | some sid, some l =>
        if sid = "" ∨ l = "" then (st, 400)
        else (⟨writeFile st.files sid l⟩, 200)
    | _, _ => (st, 400)
  else if method = "GET" ∧ path = "/experiment/logs/list" then
    (st, 200)
  else if method = "GET" ∧ jsStartsWith path "/experiment/logs/download/" then
    let sid := String.mk (path.toList.drop "/experiment/logs/download/".toList.length)
    if (st.files sid).isSome then (st, 200) else (st, 404)
  else
    (st, 404)


/-!
The browser-resident `useExperimentLogger` hook (src/unnamed/part_006).
Events are identified by natural numbers.  The state below tracks the
hook's refs, the durable browser storage for the current session, the
request currently in flight and the Log Store file reached through the
network; actions are the points where control can change hands between
the UI thread (`logEvent`) and the async `saveLogsToServer` call.
-/

/-- The fetch `saveLogsToServer` currently has in flight, carrying the
body it serialized when it was issued. -/
inductive Inflight where
  | idle : Inflight
  | appendSent (pending : List Nat) : Inflight
  | saveSent (all : List Nat) : Inflight
deriving Repr, DecidableEq

/-- State of one logger session plus its view of the Log Store file.

* `hasSession` / `hasIp`: whether `sessionId` and `manualIp` are truthy;
* `buffer` is `logsRef.current`, `savedCount` is `lastAutoSaveRef.current`;
* `storedLogs` / `storedCount` are the two localStorage keys
  `experiment-logs-<sid>` and `experiment-logs-saved-count-<sid>`;
* `file` is the list of records in the store's `<sid>.jsonl`;
* `lastSync` is the boolean returned by the most recently completed
  `saveLogsToServer` call. -/
structure LoggerSys where
  hasSession : Bool
  hasIp : Bool
  buffer : List Nat
  savedCount : Nat
  storedLogs : List Nat
  storedCount : Nat
  inflight : Inflight
  file : List Nat
  lastSync : Option Bool
deriving Repr, DecidableEq

/-- The points where the interleaving can act:

* `log e` — a synchronous `logEvent` call on the UI thread (legal at any
  time, including while a fetch is awaited);
* `syncBegin` — a `saveLogsToServer` call runs up to its first fetch;
* `appendOk` / `append404` / `appendErr` — the append fetch resolves
  with 200, 404, or fails (network error or other non-ok status);
* `saveOk` / `saveErr` — the fallback save fetch resolves ok or fails. -/
inductive LAct where
  | log (e : Nat) : LAct
  | syncBegin : LAct
  | appendOk : LAct
  | append404 : LAct
  | appendErr : LAct
  | saveOk : LAct
  | saveErr : LAct
deriving Repr, DecidableEq

/-- One step of the system.  Each branch mirrors the source:

* `log e` (part_006, lines 230-259): push onto `logsRef.current` and,
  when a session id is present, rewrite `experiment-logs-<sid>` with the
  whole buffer;
* `syncBegin` (lines 63-73): return false when session id, ip or buffer
  is missing; slice `buffer[savedCount:]`; return true when the slice is
  empty; otherwise issue the append fetch carrying exactly the slice;
* `appendOk` (lines 107-119): the store appended the carried records;
  the client sets `lastAutoSaveRef.current = logsRef.current.length`
  — the length at response time, not at slice time — persists that
  count, and returns true;
* `append404` (lines 92-105): no record was written; the client re-reads
  `logsRef.current` in full and issues the save fetch with it;
* `appendErr` (lines 120-127): return false, watermark untouched;
* `saveOk` (lines 107-119 after the fallback): the store overwrote the
  file with the carried records; watermark handling as in `appendOk`;
* `saveErr` (lines 120-127): return false, watermark untouched.

Network actions not matching the request in flight leave the state
unchanged, as does `syncBegin` while a fetch is already in flight. -/
def lstep (s : LoggerSys) : LAct → LoggerSys
  | .log e =>
      { s with
        buffer := s.buffer ++ [e]
        storedLogs := if s.hasSession then s.buffer ++ [e] else s.storedLogs }
  | .syncBegin =>
      match s.inflight with
      | .idle =>
          if !s.hasSession || !s.hasIp || s.buffer.isEmpty then
            { s with lastSync := some false }
          else if (s.buffer.drop s.savedCount).isEmpty then
            { s with lastSync := some true }
          else
            { s with inflight := .appendSent (s.buffer.drop s.savedCount) }
      | _ => s
  | .appendOk =>
      match s.inflight with
      | .appendSent p =>
          { s with
            file := s.file ++ p
            savedCount := s.buffer.length
            storedCount := if s.hasSession then s.buffer.length else s.storedCount
            inflight := .idle
            lastSync := some true }
      | _ => s
  | .append404 =>
      match s.inflight with
      | .appendSent _ => { s with inflight := .saveSent s.buffer }
      | _ => s
  | .appendErr =>
      match s.inflight with
      | .appendSent _ => { s with inflight := .idle, lastSync := some false }
      | _ => s
  | .saveOk =>
      match s.inflight with
      | .saveSent all =>
          { s with
            file := all
            savedCount := s.buffer.length
            storedCount := if s.hasSession then s.buffer.length else s.storedCount
            inflight := .idle
            lastSync := some true }
      | _ => s
  | .saveErr =>
      match s.inflight with
      | .saveSent _ => { s with inflight := .idle, lastSync := some false }
      | _ => s

/-- A fresh active session: empty buffer, watermark 0, empty store file. -/
def linit : LoggerSys :=
  ⟨true, true, [], 0, [], 0, .idle, [], none⟩

/-- Run a script of actions from a state. -/
def lrun (s : LoggerSys) (acts : List LAct) : LoggerSys :=
  acts.foldl lstep s

/-- The events a script appends via `logEvent`. -/
def loggedEvents : List LAct → List Nat
  | [] => []
  | .log e :: rest => e :: loggedEvents rest
  | _ :: rest => loggedEvents rest

/-- The interleaving that loses an event against the repository's own
server (whose store has no append route, so the first fetch gets 404):
log event 1; a sync starts and falls back to a full save carrying `[1]`;
event 2 is logged while that save is in flight; the save is acknowledged
— the watermark jumps to 2 although record 2 was never sent; a later
sync finds nothing pending and acknowledges trivially. -/
def lostEventScript : List LAct :=
  [.log 1, .syncBegin, .append404, .log 2, .saveOk, .syncBegin]

/-!
`clearLogs` (part_006, lines 313-322) and the `handleSessionChange`
callback (ActionsPanel.tsx, lines 858-868).  Browser storage is a list
of key/value pairs; the loop removes every key prefixed
`experiment-logs-`, whatever session id follows the prefix.
-/

/-- The logger-local refs plus the whole browser storage (keys of every
session and of unrelated features alike). -/
structure ClearState where
  buffer : List Nat
  savedCount : Nat
  storage : List (String × String)
deriving Repr, DecidableEq

/-- Function `clearLogs`: reset `logsRef` and `lastAutoSaveRef`, then remove every
localStorage key that starts with `experiment-logs-`. -/
def clearLogs (s : ClearState) : ClearState :=
  { buffer := []
    savedCount := 0
    storage := s.storage.filter (fun kv => !jsStartsWith kv.1 "experiment-logs-") }

/-- Function `handleSessionChange`: clear the logs exactly when the new session id
is truthy, then hand the id to the parent component. -/
def handleSessionChange (newSessionId : Option String) (s : ClearState) : ClearState :=
  match newSessionId with
  | some sid => if sid = "" then s else clearLogs s
  | none => s


/-- C3: for every submitAction invocation that reaches a terminal
result, the derived success flag equals `(statusCode == Succeeded) OR
(resultPayload contains an explicit success=true field)`: a Succeeded
status code (4) yields `success = true` regardless of payload, and a
payload field `success = true` yields `success = true` even under a
non-Succeeded status. -/
theorem C3_success_or_rule (status : Nat) (result : List (String × Json)) :
    deriveSuccess status result = specSuccess status result ∧
    (status = succeededStatus → deriveSuccess status result = true) ∧
    (payloadSuccessTrue result = true → deriveSuccess status result = true) := by
  unfold deriveSuccess specSuccess
  refine ⟨Bool.or_comm _ _, ?_, ?_⟩
  · intro h
    simp [h]
  · intro h
    simp [h]

/-- Witness for C3 at concrete inputs: Succeeded status with an empty
payload, and Aborted status with an explicit `success: true` payload. -/
theorem C3_success_or_rule_witness :
    deriveSuccess 4 [] = true ∧
    deriveSuccess 6 [("success", Json.bool true)] = true :=
  ⟨(C3_success_or_rule 4 []).2.1 (by decide),
   (C3_success_or_rule 6 [("success", Json.bool true)]).2.2 (by decide)⟩

/-- C4: for every request whose fields are truthy and whose actionType
resolves, if no action server becomes reachable within the 5000 ms
discovery timeout the handler answers `ActionServerUnavailable` (503)
and never reaches `sendGoal`. -/
theorem C4_discovery_timeout (body : GwBody) (w : RemoteWorld)
    (hname : jsTruthy body.actionName = true)
    (htype : jsTruthy body.actionType = true)
    (hgoal : jsTruthy body.goal = true)
    (hres : w.typeResolvable = true)
    (hunavail : discoveryTimeoutMs < w.serverAvailableAt) :
    (genericAction body true w).response = .serverUnavailable ∧
    (genericAction body true w).response.httpCode = 503 ∧
    (genericAction body true w).goalSubmitted = false ∧
    (genericAction body true w).sentGoal = none ∧
    discoveryTimeoutMs = 5000 := by
  have h5 : 5000 < w.serverAvailableAt := hunavail
  unfold genericAction
  simp [hname, htype, hgoal, hres, h5, GwResponse.httpCode, discoveryTimeoutMs]

/-- Witness for C4, Scenario A of the spec:
`submitAction("/arm/move", "ArmMove", {pose: 2})` with no handler
reachable before 6000 ms. -/
theorem C4_discovery_timeout_witness :
    (genericAction
        ⟨some (.str "/arm/move"), some (.str "ArmMove"),
          some (.obj [("pose", .num 2)])⟩ true
        ⟨true, 6000, .error ()⟩).response = .serverUnavailable ∧
    (genericAction
        ⟨some (.str "/arm/move"), some (.str "ArmMove"),
          some (.obj [("pose", .num 2)])⟩ true
        ⟨true, 6000, .error ()⟩).response.httpCode = 503 ∧
    (genericAction
        ⟨some (.str "/arm/move"), some (.str "ArmMove"),
          some (.obj [("pose", .num 2)])⟩ true
        ⟨true, 6000, .error ()⟩).goalSubmitted = false ∧
    (genericAction
        ⟨some (.str "/arm/move"), some (.str "ArmMove"),
          some (.obj [("pose", .num 2)])⟩ true
        ⟨true, 6000, .error ()⟩).sentGoal = none ∧
    discoveryTimeoutMs = 5000 :=
  C4_discovery_timeout _ _ (by decide) (by decide) (by decide) rfl (by decide)

/-- Counterexample to C5: the handler awaits `goalHandle.getResult()`
with no timeout argument, so the wait for a terminal status is not
bounded — a result arriving only after 3 600 000 ms (an hour, far
beyond the 5000 ms reference and any explicit bound in the handler) is
still answered 200, and no `ActionTimeout` is ever produced by the
passage of time. -/
theorem C5_counterexample :
    (genericAction
        ⟨some (.str "/arm/move"), some (.str "ArmMove"),
          some (.obj [("pose", .num 2)])⟩ true
        ⟨true, 0, .ok (3600000, 4, .obj [])⟩).response = .ok 4 (.obj []) ∧
    (genericAction
        ⟨some (.str "/arm/move"), some (.str "ArmMove"),
          some (.obj [("pose", .num 2)])⟩ true
        ⟨true, 0, .ok (3600000, 4, .obj [])⟩).response.isTimeout = false :=
  ⟨rfl, rfl⟩

/-- C5 amended: once the goal is submitted the wait for a terminal
result is unbounded — the response never depends on the arrival time of
the result message — and the 504 `ActionTimeout` reply is produced
exactly when the `getResult()` promise rejects, not on the expiry of
any timer. -/
theorem C5_result_wait_unbounded (body : GwBody) (avail t st : Nat) (p : Json)
    (hname : jsTruthy body.actionName = true)
    (htype : jsTruthy body.actionType = true)
    (hgoal : jsTruthy body.goal = true)
    (havail : avail ≤ discoveryTimeoutMs) :
    (genericAction body true ⟨true, avail, .ok (t, st, p)⟩).response = .ok st p ∧
    (genericAction body true ⟨true, avail, .error ()⟩).response = .resultTimeout ∧
    (genericAction body true ⟨true, avail, .error ()⟩).response.httpCode = 504 := by
  have h5 : ¬ (5000 < avail) := by
    simpa [discoveryTimeoutMs] using Nat.not_lt.mpr havail
  unfold genericAction
  simp [hname, htype, hgoal, h5, GwResponse.httpCode, discoveryTimeoutMs]

/-- Witness for C5 amended: server reachable at once, result after an
hour, still answered 200; a rejected result promise answered 504. -/
theorem C5_result_wait_unbounded_witness :
    (genericAction
        ⟨some (.str "/arm/move"), some (.str "ArmMove"),
          some (.obj [("pose", .num 2)])⟩ true
        ⟨true, 0, .ok (3600000, 2, .obj [])⟩).response = .ok 2 (.obj []) ∧
    (genericAction
        ⟨some (.str "/arm/move"), some (.str "ArmMove"),
          some (.obj [("pose", .num 2)])⟩ true
        ⟨true, 0, .error ()⟩).response = .resultTimeout ∧
    (genericAction
        ⟨some (.str "/arm/move"), some (.str "ArmMove"),
          some (.obj [("pose", .num 2)])⟩ true
        ⟨true, 0, .error ()⟩).response.httpCode = 504 :=
  C5_result_wait_unbounded _ 0 3600000 2 (.obj [])
    (by decide) (by decide) (by decide) (by decide)

/-- Counterexample to C9: a request with a non-empty `actionName` and a
resolvable `actionType` but an absent `goal` — and likewise one with
the falsy `goal: false` — is rejected by the gateway itself with the
400 `InvalidRequest` reply, because the guard
`if (!actionName || !actionType || !goalData)` tests JavaScript
truthiness of the goal as well. -/
theorem C9_counterexample :
    (genericAction ⟨some (.str "/arm/move"), some (.str "ArmMove"), none⟩ true
        ⟨true, 0, .ok (0, 4, .obj [])⟩).response = .invalidRequest ∧
    (genericAction ⟨some (.str "/arm/move"), some (.str "ArmMove"),
          some (.bool false)⟩ true
        ⟨true, 0, .ok (0, 4, .obj [])⟩).response = .invalidRequest ∧
    (genericAction ⟨some (.str "/arm/move"), some (.str "ArmMove"), none⟩ true
        ⟨true, 0, .ok (0, 4, .obj [])⟩).response.httpCode = 400 :=
  ⟨rfl, rfl, rfl⟩

/-- C9 amended: the gateway never rejects a request over the shape of a
truthy goal value — an empty object `{}` included — and passes the goal
payload through verbatim to `sendGoal`; but an absent or falsy `goal`
(`undefined`, `null`, `false`, `0`, `""`) is rejected with
`InvalidRequest` before anything is submitted. -/
theorem C9_goal_passthrough (body : GwBody) (nodeReady : Bool) (w : RemoteWorld)
    (hname : jsTruthy body.actionName = true)
    (htype : jsTruthy body.actionType = true)
    (hgoal : jsTruthy body.goal = true) :
    (genericAction body nodeReady w).response.isInvalid = false ∧
    ((genericAction body nodeReady w).goalSubmitted = true →
      (genericAction body nodeReady w).sentGoal = body.goal) := by
  unfold genericAction
  simp only [hname, htype, hgoal, Bool.not_true, Bool.or_self, Bool.false_or,
    Bool.or_false, if_false, ite_false, Bool.false_eq_true]
  cases nodeReady with
  | false => simp [GwResponse.isInvalid]
  | true =>
    simp only [Bool.not_true, if_false, ite_false, Bool.false_eq_true]
    cases hr : w.typeResolvable with
    | false => simp [GwResponse.isInvalid]
    | true =>
      simp only [Bool.not_true, if_false, ite_false, Bool.false_eq_true]
      by_cases h5 : discoveryTimeoutMs < w.serverAvailableAt
      · simp [h5, GwResponse.isInvalid]
      · cases hres : w.getResult with
        | error e => simp [h5, hres, GwResponse.isInvalid]
        | ok r =>
          obtain ⟨t, st, p⟩ := r
          simp [h5, hres, GwResponse.isInvalid]

/-- Witness for C9 amended: an empty-object goal reaches `sendGoal`
unchanged and is not rejected as invalid. -/
theorem C9_goal_passthrough_witness :
    (genericAction ⟨some (.str "/arm/move"), some (.str "ArmMove"),
        some (.obj [])⟩ true
      ⟨true, 0, .ok (0, 4, .obj [])⟩).response.isInvalid = false ∧
    ((genericAction ⟨some (.str "/arm/move"), some (.str "ArmMove"),
        some (.obj [])⟩ true
      ⟨true, 0, .ok (0, 4, .obj [])⟩).goalSubmitted = true →
      (genericAction ⟨some (.str "/arm/move"), some (.str "ArmMove"),
          some (.obj [])⟩ true
        ⟨true, 0, .ok (0, 4, .obj [])⟩).sentGoal = some (.obj [])) :=
  C9_goal_passthrough _ true _ (by decide) (by decide) (by decide)

/-- C1 fails on the code (see `lostEventScript`): event 2 is logged while
the fallback save of `[1]` is in flight; when the save is acknowledged,
`saveLogsToServer` sets `lastAutoSaveRef.current = logsRef.current.length`
— the length at response time — so the watermark jumps past event 2
although it was never sent.  A later `saveLogsToServer` call finds
nothing pending, acknowledges trivially, and never transmits event 2:
the store's final content for the session omits a logged event even
though a later synchronize was acknowledged. -/
theorem C1_lost_event_evaluation :
    2 ∈ loggedEvents lostEventScript ∧
    (lrun linit lostEventScript).lastSync = some true ∧
    (lrun linit lostEventScript).savedCount
      = (lrun linit lostEventScript).buffer.length ∧
    2 ∈ (lrun linit lostEventScript).buffer ∧
    2 ∉ (lrun linit lostEventScript).file ∧
    lrun linit (lostEventScript ++ [.syncBegin, .syncBegin])
      = lrun linit lostEventScript := by
  decide

/-- C2: a `saveLogsToServer` call with a non-empty pending suffix first
issues the incremental append carrying exactly `buffer[watermark:]`;
the 404 reply — and only the 404 reply — turns it into a full resend of
the entire buffer; any acknowledged success advances the watermark to
the full buffer length and persists it to browser storage; any failure
leaves the watermark unchanged. -/
theorem C2_dual_path_sync (s t u : LoggerSys) (p l : List Nat)
    (hs : s.inflight = .idle)
    (hsess : s.hasSession = true) (hip : s.hasIp = true)
    (hpend : (s.buffer.drop s.savedCount).isEmpty = false)
    (ht : t.inflight = .appendSent p) (htsess : t.hasSession = true)
    (hu : u.inflight = .saveSent l) (husess : u.hasSession = true) :
    (lstep s .syncBegin).inflight = .appendSent (s.buffer.drop s.savedCount) ∧
    (lstep t .append404).inflight = .saveSent t.buffer ∧
    (lstep t .append404).savedCount = t.savedCount ∧
    (lstep t .appendOk).inflight = .idle ∧
    (lstep t .appendErr).inflight = .idle ∧
    (lstep t .appendOk).savedCount = t.buffer.length ∧
    (lstep t .appendOk).storedCount = t.buffer.length ∧
    (lstep u .saveOk).savedCount = u.buffer.length ∧
    (lstep u .saveOk).storedCount = u.buffer.length ∧
    (lstep t .appendErr).savedCount = t.savedCount ∧
    (lstep u .saveErr).savedCount = u.savedCount := by
  have hbuf : s.buffer.isEmpty = false := by
    cases hb : s.buffer with
    | nil => rw [hb] at hpend; simp at hpend
    | cons a as => rfl
  refine ⟨?_, ?_, ?_, ?_, ?_, ?_, ?_, ?_, ?_, ?_, ?_⟩ <;>
    simp [lstep, hs, ht, hu, hsess, hip, hbuf, hpend, htsess, husess]

/-- Concrete states for the C2 witness: a call about to start with one
pending event, an append in flight, and a fallback save in flight. -/
def c2Idle : LoggerSys := ⟨true, true, [5], 0, [5], 0, .idle, [], none⟩

/-- An append carrying `[7]` in flight over buffer `[7, 8]`. -/
def c2Append : LoggerSys := ⟨true, true, [7, 8], 0, [7, 8], 0, .appendSent [7], [], none⟩

/-- A fallback save carrying `[9]` in flight over buffer `[9]`. -/
def c2Save : LoggerSys := ⟨true, true, [9], 0, [9], 0, .saveSent [9], [], none⟩

/-- Witness for C2 at the three concrete states above. -/
theorem C2_dual_path_sync_witness :
    (lstep c2Idle .syncBegin).inflight
      = .appendSent (c2Idle.buffer.drop c2Idle.savedCount) ∧
    (lstep c2Append .append404).inflight = .saveSent c2Append.buffer ∧
    (lstep c2Append .append404).savedCount = c2Append.savedCount ∧
    (lstep c2Append .appendOk).inflight = .idle ∧
    (lstep c2Append .appendErr).inflight = .idle ∧
    (lstep c2Append .appendOk).savedCount = c2Append.buffer.length ∧
    (lstep c2Append .appendOk).storedCount = c2Append.buffer.length ∧
    (lstep c2Save .saveOk).savedCount = c2Save.buffer.length ∧
    (lstep c2Save .saveOk).storedCount = c2Save.buffer.length ∧
    (lstep c2Append .appendErr).savedCount = c2Append.savedCount ∧
    (lstep c2Save .saveErr).savedCount = c2Save.savedCount :=
  C2_dual_path_sync c2Idle c2Append c2Save [7] [9]
    rfl rfl rfl (by decide) rfl rfl rfl rfl

/-- C6: at most one recording is active system-wide — `POST /bag/start`
while a bag process is running answers 400 `RecordingAlreadyActive` and
leaves both controller variables untouched, and after a successful
`POST /bag/stop` a subsequent `GET /bag/status` reports
`recording = false`. -/
theorem C6_exclusive_recording (s u : BagState) (topics : Option (List String))
    (outputPath sessionName : Option String) (ts : String) (pid : Nat)
    (hs : s.bagProcess.isSome = true)
    (hu : u.bagProcess.isSome = true) :
    bagStart s topics outputPath sessionName ts pid = (s, .alreadyActive) ∧
    (bagStart s topics outputPath sessionName ts pid).2.httpCode = 400 ∧
    (bagStop u).2 = .stopped u.currentBagPath ∧
    (bagStop u).2.httpCode = 200 ∧
    (bagStatus (bagStop u).1).1 = false := by
  have hu' : u.bagProcess.isNone = false := by
    cases h : u.bagProcess with
    | none => rw [h] at hu; simp at hu
    | some a => rfl
  refine ⟨?_, ?_, ?_, ?_, ?_⟩ <;>
    simp [bagStart, bagStop, bagStatus, hs, hu', BagResp.httpCode]

/-- Witness for C6: a controller already recording pid 111 rejects a new
start and, once stopped, reports `recording = false`. -/
theorem C6_exclusive_recording_witness :
    bagStart ⟨some 111, some "./experiment_bags/a_t"⟩ none none (some "b") "t2" 222
      = (⟨some 111, some "./experiment_bags/a_t"⟩, .alreadyActive) ∧
    (bagStart ⟨some 111, some "./experiment_bags/a_t"⟩ none none (some "b") "t2" 222).2.httpCode
      = 400 ∧
    (bagStop ⟨some 111, some "./experiment_bags/a_t"⟩).2
      = .stopped (some "./experiment_bags/a_t") ∧
    (bagStop ⟨some 111, some "./experiment_bags/a_t"⟩).2.httpCode = 200 ∧
    (bagStatus (bagStop ⟨some 111, some "./experiment_bags/a_t"⟩).1).1 = false :=
  C6_exclusive_recording _ _ none none (some "b") "t2" 222 rfl rfl

/-- C8: when the external bag-recorder process terminates without
`stop()` having been called, the `close` (or `error`) handler nulls the
controller's process and path variables, so the next `GET /bag/status`
reports `recording = false` with no pid — never a stale
`recording = true`. -/
theorem C8_crash_resets_status (s : BagState) :
    (bagStatus (onBagClose s)).1 = false ∧
    (bagStatus (onBagClose s)).2.2 = none ∧
    (bagStatus (onBagError s)).1 = false ∧
    (bagStatus (onBagError s)).2.2 = none :=
  ⟨rfl, rfl, rfl, rfl⟩


/-- Counterexample to C7: the server registers no route for
`POST /experiment/logs/append`, so a well-formed append request is
answered with the framework's default 404 and merges nothing — the
session's file keeps its old content.  The store therefore does not
expose an append operation answering 200 on success. -/
theorem C7_counterexample :
    ("POST", "/experiment/logs/append") ∉ serverRoutes ∧
    (logStoreRequest ⟨fun k => if k = "s1" then some "old" else none⟩
        "POST" "/experiment/logs/append" (some "s1") (some "rec2")).2 = 404 ∧
    (logStoreRequest ⟨fun k => if k = "s1" then some "old" else none⟩
        "POST" "/experiment/logs/append" (some "s1") (some "rec2")).1.files "s1"
      = some "old" :=
  ⟨by decide, by decide, by decide⟩

/-- C7 amended: the Log Store registers no append route — every
`POST /experiment/logs/append` is answered with the default 404, the
fallback-trigger signal, and leaves every session file untouched;
durable merging is provided instead by `POST /experiment/logs/save`, a
full overwrite keyed by sessionId that answers 200 and tolerates
exact-duplicate resends (saving the same text twice leaves the
filesystem identical, so records are duplicated or overwritten but
never lost). -/
theorem C7_append_is_fallback_signal (st : StoreState)
    (sessionId logs : Option String) (sid l : String)
    (hsid : sid ≠ "") (hl : l ≠ "") :
    logStoreRequest st "POST" "/experiment/logs/append" sessionId logs
      = (st, 404) ∧
    (logStoreRequest st "POST" "/experiment/logs/save" (some sid) (some l)).2
      = 200 ∧
    (logStoreRequest st "POST" "/experiment/logs/save" (some sid) (some l)).1.files sid
      = some l ∧
    (logStoreRequest
        (logStoreRequest st "POST" "/experiment/logs/save" (some sid) (some l)).1
        "POST" "/experiment/logs/save" (some sid) (some l)).1.files
      = (logStoreRequest st "POST" "/experiment/logs/save" (some sid) (some l)).1.files := by
  have hno : ¬ (sid = "" ∨ l = "") := not_or.mpr ⟨hsid, hl⟩
  refine ⟨?_, ?_, ?_, ?_⟩
  · simp only [logStoreRequest]
    rw [if_neg (by decide), if_neg (by decide), if_neg (by decide)]
  · simp only [logStoreRequest]
    rw [if_pos (by decide), if_neg hno]
  · simp only [logStoreRequest]
    rw [if_pos (by decide), if_neg hno]
    simp [writeFile]
  · simp only [logStoreRequest]
    rw [if_pos (by decide), if_neg hno]
    simp only [if_pos (by decide : ("POST" : String) = "POST"
      ∧ ("/experiment/logs/save" : String) = "/experiment/logs/save")]
    rw [if_neg hno]
    funext k
    by_cases hk : k = sid <;> simp [writeFile, hk]

/-- Witness for C7 amended at an empty filesystem and the session `s1`. -/
theorem C7_append_is_fallback_signal_witness :
    logStoreRequest ⟨fun _ => none⟩ "POST" "/experiment/logs/append"
        (some "s1") (some "r1") = (⟨fun _ => none⟩, 404) ∧
    (logStoreRequest ⟨fun _ => none⟩ "POST" "/experiment/logs/save"
        (some "s1") (some "r1")).2 = 200 ∧
    (logStoreRequest ⟨fun _ => none⟩ "POST" "/experiment/logs/save"
        (some "s1") (some "r1")).1.files "s1" = some "r1" ∧
    (logStoreRequest
        (logStoreRequest ⟨fun _ => none⟩ "POST" "/experiment/logs/save"
          (some "s1") (some "r1")).1
        "POST" "/experiment/logs/save" (some "s1") (some "r1")).1.files
      = (logStoreRequest ⟨fun _ => none⟩ "POST" "/experiment/logs/save"
          (some "s1") (some "r1")).1.files :=
  C7_append_is_fallback_signal ⟨fun _ => none⟩ (some "s1") (some "r1") "s1" "r1"
    (by decide) (by decide)

/-- C10: starting a new session clears the local durable buffers of every
session, not only the new one — `handleSessionChange` with a truthy new
session id calls `clearLogs`, which removes every browser-storage key
prefixed `experiment-logs-` (event buffers and saved-count watermarks
of all session ids alike, so any other session's still-unsynchronized
events are discarded), keeps every other key, and resets the in-memory
buffer and watermark. -/
theorem C10_clear_clears_all_sessions (s : ClearState) (sid k v : String)
    (hsid : sid ≠ "") :
    ((k, v) ∈ (handleSessionChange (some sid) s).storage ↔
      ((k, v) ∈ s.storage ∧ jsStartsWith k "experiment-logs-" = false)) ∧
    (handleSessionChange (some sid) s).buffer = [] ∧
    (handleSessionChange (some sid) s).savedCount = 0 := by
  unfold handleSessionChange clearLogs
  dsimp only
  rw [if_neg hsid]
  refine ⟨?_, rfl, rfl⟩
  simp [List.mem_filter]

/-- Witness for C10: switching to session `B` removes session `A`'s event
buffer from browser storage. -/
theorem C10_clear_clears_all_sessions_witness :
    (("experiment-logs-A", "[1]") ∈ (handleSessionChange (some "B")
        ⟨[3], 1, [("experiment-logs-A", "[1]"),
          ("experiment-logs-saved-count-A", "1"), ("theme", "dark")]⟩).storage ↔
      (("experiment-logs-A", "[1]") ∈
        ([("experiment-logs-A", "[1]"), ("experiment-logs-saved-count-A", "1"),
          ("theme", "dark")] : List (String × String)) ∧
        jsStartsWith "experiment-logs-A" "experiment-logs-" = false)) ∧
    (handleSessionChange (some "B")
        ⟨[3], 1, [("experiment-logs-A", "[1]"),
          ("experiment-logs-saved-count-A", "1"), ("theme", "dark")]⟩).buffer = [] ∧
    (handleSessionChange (some "B")
        ⟨[3], 1, [("experiment-logs-A", "[1]"),
          ("experiment-logs-saved-count-A", "1"), ("theme", "dark")]⟩).savedCount = 0 :=
  C10_clear_clears_all_sessions _ "B" "experiment-logs-A" "[1]" (by decide)
